import Mathlib

/-!
Verification development for the spreadsheet/JSON structure detector and
field-mapping extractor of the policy-endorsement backend
(`file_processor.py`).  The Python code is shallowly embedded: pandas
DataFrames become lists of rows of string cells (the processing pipeline
calls `fillna('')` before detection, so every cell is a string), Python
dicts become insertion-ordered association lists with overwrite-in-place
update semantics, and dynamically typed cell values become the `PyValue`
type with Python truthiness.
-/

namespace LmsSpec

/-! ### Python string primitives -/

/-- ASCII/Python whitespace recognised by `str.strip`. -/
def isPySpace (c : Char) : Bool :=
  c == ' ' || c == '\t' || c == '\n' || c == '\r' || c == '\x0b' || c == '\x0c'

/-- Python `str.strip()`: drop leading and trailing whitespace. -/
def pyStrip (s : String) : String :=
  String.mk (((s.toList.dropWhile isPySpace).reverse.dropWhile isPySpace).reverse)

/-- Python `str.lower()` restricted to the alphabet the mapping tables use:
ASCII letters plus the accented Spanish capitals. -/
def pyLowerChar (c : Char) : Char :=
  if c == 'Á' then 'á'
  else if c == 'É' then 'é'
  else if c == 'Í' then 'í'
  else if c == 'Ó' then 'ó'
  else if c == 'Ú' then 'ú'
  else if c == 'Ñ' then 'ñ'
  else if c == 'Ü' then 'ü'
  else c.toLower

/-- Python `str.lower()` on a whole string. -/
def pyLower (s : String) : String :=
  String.mk (s.toList.map pyLowerChar)

/-- Does `hay` start with `needle` (character lists)? -/
def startsWithList : List Char → List Char → Bool
  | [], _ => true
  | _ :: _, [] => false
  | c :: cs, d :: ds => c == d && startsWithList cs ds

/-- Python `needle in hay` (contiguous substring test) on character lists. -/
def containsList (needle : List Char) : List Char → Bool
  | [] => startsWithList needle []
  | c :: cs => startsWithList needle (c :: cs) || containsList needle cs

/-- Python `needle in hay` for strings. -/
def strContains (hay needle : String) : Bool :=
  containsList needle.toList hay.toList

/-- The first maximal run of decimal digits in a string:
`re.findall(r'\d+', s)[0]` when the list is non-empty. -/
def firstDigitRun (s : String) : Option String :=
  let run := (s.toList.dropWhile (fun c => !c.isDigit)).takeWhile Char.isDigit
  if run.isEmpty then Option.none else Option.some (String.mk run)

/-! ### Python values and dicts -/

/-- A dynamically typed Python scalar as it reaches `process_field_value`. -/
inductive PyValue where
  | str (s : String)
  | int (n : Int)
  | bool (b : Bool)
  | pynone
deriving DecidableEq, Repr

/-- Python truthiness (`bool(v)`). -/
def pyTruthy : PyValue → Bool
  | .str s => s != ""
  | .int n => n != 0
  | .bool b => b
  | .pynone => false

/-- Python `str(v)`. -/
def pyToString : PyValue → String
  | .str s => s
  | .int n => toString n
  | .bool b => if b then "True" else "False"
  | .pynone => "None"

/-- Insertion into a Python dict modelled as an association list: an
existing key keeps its position but its value is overwritten; a new key is
appended. -/
def pyDictInsert {α : Type} (d : List (String × α)) (k : String) (v : α) :
    List (String × α) :=
  match d with
  | [] => [(k, v)]
  | (k', v') :: rest =>
      if k' == k then (k, v) :: rest else (k', v') :: pyDictInsert rest k v

/-- Python `d[k]` / `d.get(k)` as an option. -/
def pyLookup {α : Type} (d : List (String × α)) (k : String) : Option α :=
  (d.find? (fun kv => kv.1 == k)).map (fun kv => kv.2)

/-- Python `d.update(sub)`. -/
def pyDictUpdate {α : Type} (d sub : List (String × α)) : List (String × α) :=
  sub.foldl (fun acc kv => pyDictInsert acc kv.1 kv.2) d

/-! ### Value cleaning (`FileProcessor.process_field_value`) -/

/-- The placeholder tokens of `process_field_value`, compared after
`str(...).strip()` — note the comparison in the source is case-sensitive. -/
def placeholderTokens : List String := ["", "nan", "None", "null"]

/-- `FileProcessor.process_field_value`: `None` for falsy values and
placeholder tokens; for `policy_number` the first digit run of the trimmed
string (or the trimmed string when it has no digits); otherwise the trimmed
string. -/
def process_field_value (v : PyValue) (field_type : String) : Option String :=
  if !pyTruthy v || placeholderTokens.contains (pyStrip (pyToString v)) then
    Option.none
  else if field_type == "policy_number" then
    let cleaned := pyStrip (pyToString v)
    match firstDigitRun cleaned with
    | Option.some r => Option.some r
    | Option.none => Option.some cleaned
  else
    Option.some (pyStrip (pyToString v))

/-! ### Core-field extraction (`FileProcessor.extract_core_fields_from_combination`) -/

/-- `FileProcessor.core_field_mappings`, in dict insertion order (Python
dicts iterate in insertion order). -/
def core_field_mappings : List (String × String) :=
  [("número de póliza", "policy_number"),
   ("numero de poliza", "policy_number"),
   ("numero de póliza", "policy_number"),
   ("número de poliza", "policy_number"),
   ("policy_number", "policy_number"),
   ("poliza", "policy_number"),
   ("póliza", "policy_number"),
   ("nombre del endoso", "endorsement_type"),
   ("tipo de endoso", "endorsement_type"),
   ("endorsement_type", "endorsement_type"),
   ("endoso", "endorsement_type"),
   ("versión del endoso inicial", "endorsement_version"),
   ("version del endoso inicial", "endorsement_version"),
   ("versión del endoso", "endorsement_version"),
   ("version del endoso", "endorsement_version"),
   ("endorsement_version", "endorsement_version"),
   ("version", "endorsement_version"),
   ("versión", "endorsement_version")]

/-- The `core_fields` dict of the extractor.  The only keys ever inserted
are the three canonical names occurring in `core_field_mappings`, so the
dict is represented as one field per canonical name; the outer `Option`
records key presence (`english_field not in core_fields`) and the inner
`Option String` is the stored value, which `process_field_value` may set
to Python `None`. -/
structure CoreFields where
  policy_number : Option (Option String) := Option.none
  endorsement_type : Option (Option String) := Option.none
  endorsement_version : Option (Option String) := Option.none
deriving DecidableEq, Repr

/-- `core_fields[english_field] = v`. -/
def CoreFields.set (cf : CoreFields) (en : String) (v : Option String) :
    CoreFields :=
  if en == "policy_number" then { cf with policy_number := Option.some v }
  else if en == "endorsement_type" then { cf with endorsement_type := Option.some v }
  else if en == "endorsement_version" then { cf with endorsement_version := Option.some v }
  else cf

/-- Python `english_field in core_fields`. -/
def CoreFields.has (cf : CoreFields) (en : String) : Bool :=
  if en == "policy_number" then cf.policy_number.isSome
  else if en == "endorsement_type" then cf.endorsement_type.isSome
  else if en == "endorsement_version" then cf.endorsement_version.isSome
  else false

/-- Truthiness of `core_fields.get(en)`: the key is present, its value is
not `None`, and the string is non-empty. -/
def coreTruthy (cf : CoreFields) (en : String) : Bool :=
  match (if en == "policy_number" then cf.policy_number
         else if en == "endorsement_type" then cf.endorsement_type
         else cf.endorsement_version) with
  | Option.some (Option.some s) => s != ""
  | _ => false

/-- The keyword lists of the partial-matching branch, per canonical field. -/
def fieldKeywords (en : String) : List String :=
  if en == "policy_number" then ["póliza", "poliza", "policy"]
  else if en == "endorsement_type" then ["endoso", "endorsement", "nombre"]
  else if en == "endorsement_version" then ["versión", "version"]
  else []

/-- One iteration of the mapping loop in
`extract_core_fields_from_combination`: exact match
(`spanish_field.lower() == field_name.lower().strip()`) always assigns;
the partial (keyword-substring) match only runs when the canonical field
is not yet present. -/
def stepMapping (data : List (String × String)) (cf : CoreFields)
    (m : String × String) : CoreFields :=
  let cf1 :=
    match data.find? (fun kv => pyLower m.1 == pyStrip (pyLower kv.1)) with
    | Option.some kv => cf.set m.2 (process_field_value (.str kv.2) m.2)
    | Option.none => cf
  if cf1.has m.2 then cf1
  else
    match data.find? (fun kv =>
        (fieldKeywords m.2).any (fun w => strContains (pyStrip (pyLower kv.1)) w)) with
    | Option.some kv => cf1.set m.2 (process_field_value (.str kv.2) m.2)
    | Option.none => cf1

/-- `FileProcessor.extract_core_fields_from_combination`. -/
def extract_core_fields_from_combination (data : List (String × String)) :
    CoreFields :=
  core_field_mappings.foldl (stepMapping data) {}

/-! ### Tables and structure detection (`FileProcessor.detect_excel_structure`) -/

/-- A pandas DataFrame as it reaches detection: `process_excel_file` has
already run `fillna('')`, so every cell is a string.  `ncols` is
`len(df.columns)`; rows are assumed rectangular of width `ncols`
(missing cells read as `""`). -/
structure DataFrame where
  ncols : Nat
  rows : List (List String)
deriving DecidableEq, Repr

/-- `df.iloc[i, j]`. -/
def cell (df : DataFrame) (i j : Nat) : String :=
  (df.rows.getD i []).getD j ""

/-- `df.iloc[:, j]` as a list. -/
def colValues (df : DataFrame) (j : Nat) : List String :=
  df.rows.map (fun r => r.getD j "")

/-- The result record of `detect_excel_structure` (the fields the
extraction step consumes; logging/debug info omitted). -/
structure StructureInfo where
  type : String
  campo_column : Option Nat := Option.none
  data_start_column : Option Nat := Option.none
  combination_columns : List Nat := []
  combination_count : Nat := 0
deriving DecidableEq, Repr

/-- `campo_indicators` of the detector. -/
def campo_indicators : List String := ["campo", "field", "parameter"]

/-- `spanish_field_patterns` of the detector. -/
def spanish_field_patterns : List String :=
  ["número", "nombre", "versión", "ramo", "año"]

/-- `df.iloc[:, 1].astype(str).str.lower()`. -/
def colBValues (df : DataFrame) : List String :=
  (colValues df 1).map pyLower

/-- An explicit field indicator occurs in the first 10 sampled cells of
column B. -/
def hasIndicator (df : DataFrame) : Bool :=
  campo_indicators.any (fun ind =>
    ((colBValues df).take 10).any (fun v => strContains v ind))

/-- How many distinct Spanish field-name patterns occur among the first 15
sampled cells of column B. -/
def spanishCount (df : DataFrame) : Nat :=
  spanish_field_patterns.countP (fun p =>
    ((colBValues df).take 15).any (fun v => strContains v p))

/-- A cell counts as meaningful data for a combination column:
`str(val).strip() and str(val) != 'nan'` (the placeholder comparison uses
the untrimmed value). -/
def meaningfulCell (v : String) : Bool :=
  pyStrip v != "" && v != "nan"

/-- A column (index ≥ 2) qualifies as a combination column iff it holds at
least 3 meaningful cells. -/
def qualifiesCombinationColumn (df : DataFrame) (j : Nat) : Bool :=
  decide (3 ≤ (colValues df j).countP meaningfulCell)

/-- `FileProcessor.detect_excel_structure`.  With fewer than 2 columns, or
when no campo structure is found in column B, the function falls through
to `type = "record_based"`; `"unknown"` survives only on an exception,
which the pure embedding has none of. -/
def detect_excel_structure (df : DataFrame) : StructureInfo :=
  if 1 < df.ncols then
    if hasIndicator df || 2 ≤ spanishCount df then
      let combos := (List.range' 2 (df.ncols - 2)).filter
        (fun j => qualifiesCombinationColumn df j)
      { type := "campo_combinations"
        campo_column := Option.some 1
        data_start_column := combos.head?
        combination_columns := combos
        combination_count := combos.length }
    else
      { type := "record_based" }
  else
    { type := "record_based" }

/-! ### Matrix extraction (`FileProcessor.process_campo_combinations_structure`) -/

/-- One normalized record (`endorsement` dict) as produced by the
extractors; `spanish_fields` (an alias of `all_fields`) and debug-only
entries are omitted. -/
structure Endorsement where
  combination_number : Nat
  core_fields : CoreFields
  all_fields : List (String × String)
  field_count : Nat
  extraction_method : String
  combination_id : String
deriving DecidableEq, Repr

/-- Collect the trimmed non-empty labels of the campo column together with
`field_row_mapping` (label → row index, later duplicates overwriting). -/
def collectFieldNames (vals : List String) :
    List String × List (String × Nat) :=
  vals.enum.foldl
    (fun acc p =>
      if pyStrip p.2 != "" then
        (acc.1 ++ [pyStrip p.2], pyDictInsert acc.2 (pyStrip p.2) p.1)
      else acc)
    ([], [])

/-- Walk the field names of the campo column and read the matching cells
of one combination column, returning the combination dict together with
the `values_found` counter (which, unlike the dict length, counts
duplicate labels twice). -/
def buildCombinationData (df : DataFrame) (field_names : List String)
    (fm : List (String × Nat)) (ccol : Nat) :
    List (String × String) × Nat :=
  field_names.foldl
    (fun acc fname =>
      match pyLookup fm fname with
      | Option.some row_idx =>
          if row_idx < df.rows.length then
            let v := cell df row_idx ccol
            if pyStrip v != "" && v != "nan" then
              (pyDictInsert acc.1 fname (pyStrip v), acc.2 + 1)
            else acc
          else acc
      | Option.none => acc)
    ([], 0)

/-- The body of the per-combination loop: a combination is kept only when
it has at least 3 values and passes the viability check
(`policy_number` or `endorsement_type` truthy, or at least 5 raw fields). -/
def processCombination (df : DataFrame) (field_names : List String)
    (fm : List (String × Nat)) (col_idx ccol : Nat) : Option Endorsement :=
  let b := buildCombinationData df field_names fm ccol
  if 3 ≤ b.2 then
    let core := extract_core_fields_from_combination b.1
    if coreTruthy core "policy_number" || coreTruthy core "endorsement_type"
        || decide (5 ≤ b.1.length) then
      Option.some
        { combination_number := col_idx + 1
          core_fields := core
          all_fields := b.1
          field_count := b.1.length
          extraction_method := "campo_combinations"
          combination_id := "combo_" ++ toString (col_idx + 1) }
    else Option.none
  else Option.none

/-- `FileProcessor.process_campo_combinations_structure`.  A missing campo
column raises inside the Python `try`, which swallows the error and
returns the empty list. -/
def process_campo_combinations_structure (df : DataFrame)
    (si : StructureInfo) : List Endorsement :=
  match si.campo_column with
  | Option.none => []
  | Option.some ccol =>
      let fp := collectFieldNames (colValues df ccol)
      si.combination_columns.enum.filterMap
        (fun p => processCombination df fp.1 fp.2 p.1 p.2)

/-! ### Row-based extraction (`FileProcessor.process_record_based_table`) -/

/-- The non-empty, non-`'nan'` cells of one row keyed by the stringified
column label (with `header=None` the labels are the column indices). -/
def rowData (row : List String) : List (String × String) :=
  row.enum.foldl
    (fun acc p =>
      if pyStrip p.2 != "" && p.2 != "nan" then
        pyDictInsert acc (toString p.1) (pyStrip p.2)
      else acc)
    []

/-- The body of the per-row loop: a row is kept only when it has at least
3 fields and `policy_number` or `endorsement_type` is truthy (there is no
raw-field-count rescue on this path). -/
def processRow (idx : Nat) (row : List String) : Option Endorsement :=
  let rd := rowData row
  if 3 ≤ rd.length then
    let core := extract_core_fields_from_combination rd
    if coreTruthy core "policy_number" || coreTruthy core "endorsement_type" then
      Option.some
        { combination_number := 1
          core_fields := core
          all_fields := rd
          field_count := rd.length
          extraction_method := "record_based"
          combination_id := "row_" ++ toString idx }
    else Option.none
  else Option.none

/-- `FileProcessor.process_record_based_table`. -/
def process_record_based_table (df : DataFrame) : List Endorsement :=
  df.rows.enum.filterMap (fun p => processRow p.1 p.2)

/-! ### Nested-structure flattening (`FileProcessor.flatten_dict`) -/

/-- A decoded JSON value as `flatten_dict` sees it. -/
inductive JValue where
  | str (s : String)
  | num (n : Int)
  | bool (b : Bool)
  | null
  | obj (fields : List (String × JValue))
  | arr (elems : List JValue)

/-- `isinstance(value, list) and value and isinstance(value[0], dict)`. -/
def isObjHeadList : List JValue → Bool
  | JValue.obj _ :: _ => true
  | _ => false

mutual

/-- The key/value loop of `flatten_dict` threading the `flattened`
accumulator dict.  A list whose first element is a dict recurses into
every element; recursing into a non-dict raises `AttributeError`
(no `.items()`), modelled as `Except.error`. -/
def flattenGo : List (String × JValue) → String → List (String × JValue) →
    Except String (List (String × JValue))
  | [], _, acc => Except.ok acc
  | (key, value) :: rest, pre, acc =>
      let new_key := if pre == "" then key else pre ++ "_" ++ key
      match value with
      | JValue.obj fields =>
          match flattenGo fields new_key [] with
          | Except.ok sub => flattenGo rest pre (pyDictUpdate acc sub)
          | Except.error e => Except.error e
      | JValue.arr elems =>
          if isObjHeadList elems then
            match flattenArr elems new_key 0 acc with
            | Except.ok acc2 => flattenGo rest pre acc2
            | Except.error e => Except.error e
          else flattenGo rest pre (pyDictInsert acc new_key value)
      | v => flattenGo rest pre (pyDictInsert acc new_key v)

/-- The `for i, item in enumerate(value)` loop over a list whose first
element is a dict. -/
def flattenArr : List JValue → String → Nat → List (String × JValue) →
    Except String (List (String × JValue))
  | [], _, _, acc => Except.ok acc
  | e :: rest, base, i, acc =>
      match e with
      | JValue.obj fs =>
          match flattenGo fs (base ++ "_" ++ toString i) [] with
          | Except.ok sub => flattenArr rest base (i + 1) (pyDictUpdate acc sub)
          | Except.error err => Except.error err
      | _ => Except.error "AttributeError"

end

/-- `FileProcessor.flatten_dict` (separator fixed at `'_'`). -/
def flatten_dict (data : List (String × JValue)) (pre : String) :
    Except String (List (String × JValue)) :=
  flattenGo data pre []

/-! ### Concrete tables used as witnesses and counterexamples -/

/-- A matrix sheet with one qualifying combination column whose labels are
unrecognisable, so the combination is dropped by the viability filter. -/
def dfC1 : DataFrame := ⟨3, [["", "campo", "1"], ["", "a", "2"], ["", "b", "3"]]⟩

/-- A 2-column table whose label column holds an explicit indicator. -/
def dfC2w : DataFrame := ⟨2, [["x", "campo"]]⟩

/-- A row with 7 data cells, none of whose column labels maps to a core
field. -/
def rowC3 : List String := ["v1", "v2", "v3", "v4", "v5", "v6", "v7"]

/-- A one-row record-based table built from `rowC3`. -/
def dfC3 : DataFrame := ⟨7, [rowC3]⟩

/-- A single-column table. -/
def dfC6 : DataFrame := ⟨1, [["x"]]⟩

/-- A matrix sheet yielding exactly one viable combination. -/
def dfC8 : DataFrame :=
  ⟨3, [["", "campo", "valores"], ["", "poliza", "123"], ["", "endoso", "Mat"]]⟩

/-- The single endorsement extracted from `dfC8`. -/
def eC8 : Endorsement :=
  { combination_number := 1
    core_fields := { policy_number := Option.some (Option.some "123")
                     endorsement_type := Option.some (Option.some "Mat")
                     endorsement_version := Option.none }
    all_fields := [("campo", "valores"), ("poliza", "123"), ("endoso", "Mat")]
    field_count := 3
    extraction_method := "campo_combinations"
    combination_id := "combo_1" }

/-! ### Shared helper lemmas -/

/-- Any endorsement produced by `processCombination` carries the 1-based
enumeration index of its column and passes `all_fields` through unchanged
next to the core fields extracted from it. -/
theorem processCombination_some_spec (df : DataFrame) (fns : List String)
    (fm : List (String × Nat)) (i c : Nat) (e : Endorsement)
    (h : processCombination df fns fm i c = Option.some e) :
    e.combination_number = i + 1 ∧
      extract_core_fields_from_combination e.all_fields = e.core_fields := by
  simp only [processCombination] at h
  split at h
  · split at h
    · injection h with h2
      subst h2
      exact ⟨rfl, rfl⟩
    · exact Option.noConfusion h
  · exact Option.noConfusion h

/-- The combination numbers produced from an enumerated suffix of the
qualifying columns form a sublist of the corresponding numbering range. -/
theorem combinationNumbers_sublist (df : DataFrame) (fns : List String)
    (fm : List (String × Nat)) :
    ∀ (l : List Nat) (n : Nat),
      List.Sublist
        (((List.enumFrom n l).filterMap
            (fun p => processCombination df fns fm p.1 p.2)).map
          (fun e => e.combination_number))
        (List.range' (n + 1) l.length) := by
  intro l
  induction l with
  | nil => intro n; simp
  | cons c l ih =>
    intro n
    have hstep : List.enumFrom n (c :: l) = (n, c) :: List.enumFrom (n + 1) l := rfl
    have hr : List.range' (n + 1) (c :: l).length
        = (n + 1) :: List.range' (n + 2) l.length := rfl
    rw [hstep, hr]
    cases hg : processCombination df fns fm n c with
    | none =>
      rw [List.filterMap_cons_none (by exact hg)]
      exact List.Sublist.cons _ (ih (n + 1))
    | some e =>
      rw [List.filterMap_cons_some (by exact hg), List.map_cons,
        (processCombination_some_spec df fns fm n c e hg).1]
      exact List.Sublist.cons₂ _ (ih (n + 1))

/-- With at least 2 columns, the detected type is decided by the campo
test over column B. -/
theorem detect_type_eq (df : DataFrame) (h1 : 1 < df.ncols) :
    (detect_excel_structure df).type =
      if hasIndicator df || decide (2 ≤ spanishCount df) then
        "campo_combinations"
      else "record_based" := by
  unfold detect_excel_structure
  rw [if_pos h1]
  split <;> rfl

/-! ### Claims -/

/-- Claim C1 (amended): the combination numbers of the records returned by
matrix extraction form a sublist of `1..K` where `K` is the number of
qualifying combination columns — each record is numbered by the 1-based
left-to-right position of its column among the qualifying columns, and
skipped non-qualifying columns cause no gaps; but (contrary to the
original claim, see the counterexample) columns dropped by the
values-found and viability filters make the output shorter than `K`. -/
theorem claim_C1_thm (df : DataFrame) (si : StructureInfo) :
    List.Sublist
      ((process_campo_combinations_structure df si).map
        (fun e => e.combination_number))
      (List.range' 1 si.combination_columns.length) := by
  cases hcc : si.campo_column with
  | none => simp [process_campo_combinations_structure, hcc]
  | some ccol =>
    simp only [process_campo_combinations_structure, hcc]
    exact combinationNumbers_sublist df
      (collectFieldNames (colValues df ccol)).1
      (collectFieldNames (colValues df ccol)).2
      si.combination_columns 0

/-- Claim C1 counterexample: `dfC1` is classified as a label-value matrix
with exactly `K = 1` qualifying combination column, yet matrix extraction
returns no RawFieldMap at all (the lone combination fails the viability
filter), refuting "returns exactly K RawFieldMaps". -/
theorem claim_C1_counterexample :
    (detect_excel_structure dfC1).type = "campo_combinations" ∧
    (detect_excel_structure dfC1).combination_count = 1 ∧
    process_campo_combinations_structure dfC1 (detect_excel_structure dfC1) = [] :=
  ⟨rfl, rfl, rfl⟩

/-- Claim C2: for a table with at least 2 columns, the detector classifies
it as a label-value matrix (`campo_combinations`) iff an indicator token
occurs in the sampled cells of column index 1 or at least 2 distinct
Spanish field-name patterns occur there; with no indicator and exactly one
pattern the classification is row-per-record (`record_based`). -/
theorem claim_C2_thm (df : DataFrame) (h : 2 ≤ df.ncols) :
    (((detect_excel_structure df).type = "campo_combinations") ↔
      (hasIndicator df = true ∨ 2 ≤ spanishCount df)) ∧
    (hasIndicator df = false → spanishCount df = 1 →
      (detect_excel_structure df).type = "record_based") := by
  have hd := detect_type_eq df (by omega)
  constructor
  · rw [hd]
    by_cases hb : (hasIndicator df || decide (2 ≤ spanishCount df)) = true
    · rw [if_pos hb]
      simp only [Bool.or_eq_true, decide_eq_true_eq] at hb
      simpa using hb
    · rw [if_neg hb]
      simp only [Bool.or_eq_true, decide_eq_true_eq] at hb
      push_neg at hb
      constructor
      · intro hcontra
        exact absurd hcontra (by decide)
      · intro hor
        rcases hor with h1 | h2
        · exact absurd h1 hb.1
        · exact absurd h2 (by omega)
  · intro hi hs
    rw [hd, if_neg (by simp [hi, hs])]

/-- Claim C2 witness: the 2-column table `dfC2w` instantiates the claim. -/
theorem claim_C2_witness :
    2 ≤ dfC2w.ncols ∧
    ((((detect_excel_structure dfC2w).type = "campo_combinations") ↔
       (hasIndicator dfC2w = true ∨ 2 ≤ spanishCount dfC2w)) ∧
     (hasIndicator dfC2w = false → spanishCount dfC2w = 1 →
       (detect_excel_structure dfC2w).type = "record_based")) :=
  ⟨by decide, claim_C2_thm dfC2w (by decide)⟩

/-- Claim C3 (amended): a matrix combination is emitted iff it has at
least 3 values found and (`policy_number` truthy, or `endorsement_type`
truthy, or at least 5 raw fields); a row-based record is emitted iff its
row map has at least 3 entries and `policy_number` or `endorsement_type`
is truthy.  The raw-field-count rescue exists only on the matrix path, and
only `policy_number`/`endorsement_type` (not the other core fields) count
toward viability. -/
theorem claim_C3_thm :
    (∀ (idx : Nat) (row : List String),
      (processRow idx row).isSome = true ↔
        (3 ≤ (rowData row).length ∧
          (coreTruthy (extract_core_fields_from_combination (rowData row))
              "policy_number" = true ∨
           coreTruthy (extract_core_fields_from_combination (rowData row))
              "endorsement_type" = true))) ∧
    (∀ (df : DataFrame) (fns : List String) (fm : List (String × Nat))
        (i c : Nat),
      (processCombination df fns fm i c).isSome = true ↔
        (3 ≤ (buildCombinationData df fns fm c).2 ∧
          (coreTruthy
              (extract_core_fields_from_combination
                (buildCombinationData df fns fm c).1) "policy_number" = true ∨
           coreTruthy
              (extract_core_fields_from_combination
                (buildCombinationData df fns fm c).1) "endorsement_type" = true ∨
           5 ≤ (buildCombinationData df fns fm c).1.length))) := by
  constructor
  · intro idx row
    simp only [processRow]
    split <;> rename_i h1
    · split <;> rename_i h2
      · simp only [Option.isSome_some, true_iff]
        refine ⟨h1, ?_⟩
        simp only [Bool.or_eq_true] at h2
        tauto
      · simp only [Option.isSome_none, Bool.false_eq_true, false_iff]
        intro hc
        apply h2
        simp only [Bool.or_eq_true]
        tauto
    · simp only [Option.isSome_none, Bool.false_eq_true, false_iff]
      intro hc
      exact h1 hc.1
  · intro df fns fm i c
    simp only [processCombination]
    split <;> rename_i h1
    · split <;> rename_i h2
      · simp only [Option.isSome_some, true_iff]
        refine ⟨h1, ?_⟩
        simp only [Bool.or_eq_true, decide_eq_true_eq] at h2
        tauto
      · simp only [Option.isSome_none, Bool.false_eq_true, false_iff]
        intro hc
        apply h2
        simp only [Bool.or_eq_true, decide_eq_true_eq]
        tauto
    · simp only [Option.isSome_none, Bool.false_eq_true, false_iff]
      intro hc
      exact h1 hc.1

/-- Claim C3 counterexample: the single row of `dfC3` yields 7 raw fields
— far above any configured minimum threshold — yet row-based processing
emits nothing, because the raw-count rescue does not exist on the
row-based path; this refutes the claimed "emitted if … the raw field
count exceeds the configured minimum threshold (the raw-count rescue
applies to every extraction method)". -/
theorem claim_C3_counterexample :
    (rowData rowC3).length = 7 ∧ process_record_based_table dfC3 = [] :=
  ⟨rfl, rfl⟩

/-- Claim C4: for a non-empty, non-placeholder raw value routed to
`policy_number`, the normalizer strips whitespace and returns the first
maximal run of decimal digits, or the trimmed original when it contains no
digits. -/
theorem claim_C4_thm (s : String) (h1 : pyTruthy (PyValue.str s) = true)
    (h2 : placeholderTokens.contains (pyStrip s) = false) :
    process_field_value (PyValue.str s) "policy_number" =
      Option.some ((firstDigitRun (pyStrip s)).getD (pyStrip s)) := by
  simp only [process_field_value, pyToString, h1, h2, Bool.not_true,
    Bool.or_self, Bool.false_eq_true, if_false, if_pos rfl]
  cases hr : firstDigitRun (pyStrip s) <;> simp [hr]

/-- Claim C4 witness: `"POL-1618805-A"` yields `"1618805"` and `"N/A"`
yields `"N/A"`. -/
theorem claim_C4_witness :
    (pyTruthy (PyValue.str "POL-1618805-A") = true ∧
     placeholderTokens.contains (pyStrip "POL-1618805-A") = false ∧
     process_field_value (PyValue.str "POL-1618805-A") "policy_number" =
       Option.some "1618805") ∧
    (pyTruthy (PyValue.str "N/A") = true ∧
     placeholderTokens.contains (pyStrip "N/A") = false ∧
     process_field_value (PyValue.str "N/A") "policy_number" =
       Option.some "N/A") :=
  ⟨⟨by decide, by decide,
    (claim_C4_thm "POL-1618805-A" (by decide) (by decide)).trans (by decide)⟩,
   ⟨by decide, by decide,
    (claim_C4_thm "N/A" (by decide) (by decide)).trans (by decide)⟩⟩

/-- Claim C5 (amended): a value resolves to null exactly when it is
Python-falsy or its trimmed string form is one of the placeholder tokens
`""`, `"nan"`, `"None"`, `"null"` compared case-SENSITIVELY — other
casings such as `"NAN"`, `"NULL"`, `"none"` are kept as ordinary values
(contrary to the original claim's "in any letter case"). -/
theorem claim_C5_thm (v : PyValue) (ft : String) :
    process_field_value v ft = Option.none ↔
      (pyTruthy v = false ∨
        placeholderTokens.contains (pyStrip (pyToString v)) = true) := by
  simp only [process_field_value]
  split <;> rename_i hc
  · simp only [true_iff]
    rcases (Bool.or_eq_true _ _).mp hc with h | h
    · exact Or.inl (by simpa using h)
    · exact Or.inr h
  · rw [Bool.or_eq_true] at hc
    push_neg at hc
    constructor
    · intro hnone
      split at hnone
      · split at hnone <;> exact Option.noConfusion hnone
      · exact Option.noConfusion hnone
    · intro hor
      rcases hor with h | h
      · exact absurd (by simp [h] : (!pyTruthy v) = true) hc.1
      · exact absurd h hc.2

/-- Claim C5 counterexample: the upper/other-case placeholder spellings
are not recognised — they pass through as canonical values instead of
resolving to null. -/
theorem claim_C5_counterexample :
    process_field_value (PyValue.str "NAN") "endorsement_type" =
      Option.some "NAN" ∧
    process_field_value (PyValue.str "none") "endorsement_version" =
      Option.some "none" ∧
    process_field_value (PyValue.str "NULL") "endorsement_type" =
      Option.some "NULL" := by
  decide

/-- Claim C6 (amended): a table with fewer than 2 columns is classified as
`record_based` (row-per-record) — not `unknown` as the original claim
states; `unknown` survives only when an exception escapes the detector,
which the pure detection path never raises. -/
theorem claim_C6_thm (df : DataFrame) (h : df.ncols < 2) :
    (detect_excel_structure df).type = "record_based" := by
  unfold detect_excel_structure
  rw [if_neg (by omega)]

/-- Claim C6 counterexample: the single-column table `dfC6` is classified
`record_based`, not `unknown`, refuting "the classification result is
Unknown (never RowPerRecord)". -/
theorem claim_C6_counterexample :
    (detect_excel_structure dfC6).type = "record_based" ∧
    (detect_excel_structure dfC6).type ≠ "unknown" :=
  ⟨rfl, by decide⟩

/-- Claim C6 witness: the amended statement instantiated at `dfC6`. -/
theorem claim_C6_witness :
    dfC6.ncols < 2 ∧ (detect_excel_structure dfC6).type = "record_based" :=
  ⟨by decide, claim_C6_thm dfC6 (by decide)⟩

/-- Claim C7: flattening `{"a": {"b": "1"}, "c": [{"d": "2"}]}` yields
exactly `{"a_b": "1", "c_0_d": "2"}`, with nested keys joined by `_` and
the object-list element expanded with an index-suffixed key. -/
theorem claim_C7_thm :
    flatten_dict
        [("a", JValue.obj [("b", JValue.str "1")]),
         ("c", JValue.arr [JValue.obj [("d", JValue.str "2")]])] "" =
      Except.ok [("a_b", JValue.str "1"), ("c_0_d", JValue.str "2")] := by
  simp [flatten_dict, flattenGo, flattenArr, pyDictUpdate, pyDictInsert,
    isObjHeadList]
  rfl

/-- Claim C8: normalization is idempotent on the raw-field pass-through —
every record emitted by matrix extraction carries its raw map unchanged in
`all_fields`, and re-running the core-field extractor on it reproduces the
record's core fields. -/
theorem claim_C8_thm (df : DataFrame) (si : StructureInfo) (e : Endorsement)
    (he : e ∈ process_campo_combinations_structure df si) :
    extract_core_fields_from_combination e.all_fields = e.core_fields := by
  cases hcc : si.campo_column with
  | none =>
    simp only [process_campo_combinations_structure, hcc] at he
    cases he
  | some ccol =>
    simp only [process_campo_combinations_structure, hcc] at he
    obtain ⟨p, _, hsome⟩ := List.mem_filterMap.mp he
    exact (processCombination_some_spec df _ _ p.1 p.2 e hsome).2

/-- Claim C8 witness: the record extracted from `dfC8` instantiates the
idempotence statement. -/
theorem claim_C8_witness :
    eC8 ∈ process_campo_combinations_structure dfC8 (detect_excel_structure dfC8) ∧
    extract_core_fields_from_combination eC8.all_fields = eC8.core_fields := by
  have hm : eC8 ∈
      process_campo_combinations_structure dfC8 (detect_excel_structure dfC8) := by
    have hp : process_campo_combinations_structure dfC8
        (detect_excel_structure dfC8) = [eC8] := rfl
    rw [hp]
    exact List.mem_singleton.mpr rfl
  exact ⟨hm, claim_C8_thm dfC8 (detect_excel_structure dfC8) eC8 hm⟩

/-- Claim C9: value cleaning sends every Python-falsy input — in
particular the integer `0` and the boolean `False` — to null, for every
canonical field. -/
theorem claim_C9_thm (v : PyValue) (ft : String) (h : pyTruthy v = false) :
    process_field_value v ft = Option.none := by
  simp [process_field_value, h]

/-- Claim C9 witness: `0` and `False` resolve to null although `"0"` is
not a placeholder token. -/
theorem claim_C9_witness :
    (pyTruthy (PyValue.int 0) = false ∧
     process_field_value (PyValue.int 0) "endorsement_type" = Option.none ∧
     placeholderTokens.contains (pyStrip (pyToString (PyValue.int 0))) = false) ∧
    (pyTruthy (PyValue.bool false) = false ∧
     process_field_value (PyValue.bool false) "policy_number" = Option.none) :=
  ⟨⟨by decide, claim_C9_thm (PyValue.int 0) "endorsement_type" (by decide),
    by decide⟩,
   ⟨by decide, claim_C9_thm (PyValue.bool false) "policy_number" (by decide)⟩⟩

/-- Claim C10: the flattener is not total — on a list whose first element
is an object but which also contains a non-object element, every element
is recursed into as an object and the non-object raises `AttributeError`. -/
theorem claim_C10_thm :
    flatten_dict
        [("c", JValue.arr [JValue.obj [("d", JValue.str "2")], JValue.str "x"])]
        "" =
      Except.error "AttributeError" := by
  simp [flatten_dict, flattenGo, flattenArr, pyDictUpdate, pyDictInsert,
    isObjHeadList]

end LmsSpec
